import Mathlib

/-!
# flag-zero: configuration loading, validation and server construction

A shallow embedding of `config/config.go`, `config/loader.go` and the pure parts of
`cmd/server/main.go`.

Conventions of the embedding

* Go `string` is `String` (the code inspects strings only for emptiness, equality and ASCII
  bytes, on which bytes and characters agree); Go `int` is `Int` (the 64-bit range matters
  only where the code parses or multiplies, and is made explicit there).
* A `*Config` is `Option Config` (`none` is the nil pointer); a method that writes through its
  pointer receiver returns the updated `Config`.
* A Go `panic` is a value of `Outcome`, next to the normal return.
* The process environment, the package variables `cfg` and `once`, and the lines written with
  `log.Printf` form the explicit state `Process`.
-/

namespace FlagZero

/-! ## config/config.go -/

/-- Go: `type Environment string`. -/
abbrev Environment := String

/-- Go: `EnvDevelopment Environment = "dev"`. -/
def EnvDevelopment : Environment := "dev"

/-- Go: `EnvProduction Environment = "prod"`. -/
def EnvProduction : Environment := "prod"

/-- Go: `type ServerConfig struct`. -/
structure ServerConfig where
  Host : String
  Port : String
  ReadTimeout : Int
  WriteTimeout : Int
  deriving DecidableEq, Repr

/-- Go: `type DatabaseConfig struct`. -/
structure DatabaseConfig where
  MySQLDSN : String
  Host : String
  Port : String
  User : String
  Password : String
  Name : String
  deriving DecidableEq, Repr

/-- Go: `type RedisConfig struct`. -/
structure RedisConfig where
  Addr : String
  Password : String
  DB : Int
  deriving DecidableEq, Repr

/-- Go: `type AppConfig struct`. -/
structure AppConfig where
  Env : Environment
  LogLevel : String
  deriving DecidableEq, Repr

/-- Go: `type Config struct`. -/
structure Config where
  Server : ServerConfig
  Database : DatabaseConfig
  Redis : RedisConfig
  App : AppConfig
  deriving DecidableEq, Repr

/-! ## config/loader.go: `Validate` -/

/-- How a call of a Go function that returns `error` ends: a normal return carrying the error
value (`none` is `nil`), or a panic carrying its message. -/
inductive Outcome where
  | returned (err : Option String)
  | panicked (msg : String)
  deriving DecidableEq, Repr

/-- The call failed: it panicked, or it returned a non-nil error. -/
def Outcome.failed : Outcome → Bool
  | .returned none => false
  | .returned (some _) => true
  | .panicked _ => true

/-- Go: `func (c *Config) Validate() error`. The first component is the `Config` behind the
receiver when the call ends (the assignment to `LogLevel` precedes the checks, so it is
visible after a panic as well), the second is how the call ended. -/
def Config.Validate (c : Config) : Config × Outcome :=
  if c.App.Env = "prod" then
    let c : Config := { c with App := { c.App with LogLevel := "error" } }
    if c.Database.MySQLDSN = "" then
      (c, .panicked "MYSQL_DSN is required in production")
    else if c.Redis.Addr = "" then
      (c, .panicked "REDIS_ADDR is required in production")
    else if c.Redis.Password = "" then
      (c, .panicked "REDIS_PASSWORD is required in production")
    else if c.Redis.DB = 0 then
      (c, .panicked "REDIS_DB is required in production")
    else
      (c, .returned none)
  else
    (c, .returned none)

/-! ## The process state read and written by `config/loader.go` -/

/-- The process environment: the list of `KEY=value` entries, first entry for a key wins. A key
that does not occur is unset. -/
abbrev Env := List (String × String)

/-- Go: `os.Getenv(key)`: the value of the variable, or the empty string when it is unset. -/
def Getenv (env : Env) (key : String) : String :=
  (env.lookup key).getD ""

/-- What the external call `godotenv.Load()` leaves behind: the process environment after the
entries of the `.env` file were merged into it, and the error it returned (`none` is `nil`).
The library is not part of the repository; its behaviour is a parameter of `LoadEnvConfig`. -/
structure DotenvResult where
  env : Env
  err : Option String
  deriving DecidableEq, Repr

/-- The behaviour of `godotenv.Load()` in a process without a readable `.env` file: the
environment is left alone and an error is returned. -/
def noDotenvFile (env : Env) : DotenvResult :=
  { env := env, err := some "open .env: no such file or directory" }

/-- The behaviour of `godotenv.Load()` in a process with a readable `.env` file whose parsed
entries are `file` (one entry per key): every variable of the file that the process
environment does not set is added to it; a variable the process environment sets, also to the
empty string, keeps its value; no error is returned. Appending the file behind the process
environment gives exactly that, since the first entry for a key wins. -/
def dotenvFile (file : Env) (env : Env) : DotenvResult :=
  { env := env ++ file, err := none }

/-- A line written with `log.Printf` by the loader. `dotenvNotLoaded err` stands for
`[WARN] .env not loaded: err`; `invalidInt key val` stands for
`[WARN] invalid int for key: <the Atoi error for val>, using fallback`. -/
inductive LogLine where
  | dotenvNotLoaded (err : String)
  | invalidInt (key : String) (val : String)
  deriving DecidableEq, Repr

/-- Smallest value of a 64-bit Go `int`. -/
def minInt : Int := -9223372036854775808

/-- Largest value of a 64-bit Go `int`. -/
def maxInt : Int := 9223372036854775807

/-- The digit loop of `strconv.ParseUint` in base 10 without the range check: the value of a
run of ASCII digits, `none` on the first byte that is not a digit. -/
def parseDigits : List Char → Nat → Option Nat
  | [], acc => some acc
  | c :: cs, acc =>
    if c.isDigit then parseDigits cs (acc * 10 + (c.toNat - '0'.toNat)) else none

/-- The rest of `strconv.ParseInt(s, 10, 0)` once the sign is taken off: `strconv.ParseUint` on
the remaining bytes (an error when there is none or one is not an ASCII digit), then the
range check against the 64-bit `int`. `none` stands for a returned error. -/
def parseMagnitude (neg : Bool) (ds : List Char) : Option Int :=
  match ds with
  | [] => none
  | d :: ds' =>
    match parseDigits (d :: ds') 0 with
    | none => none
    | some un =>
      if neg then
        if -(un : Int) < minInt then none else some (-(un : Int))
      else
        if (un : Int) > maxInt then none else some (un : Int)

/-- Go standard library: `strconv.Atoi(s)` for a 64-bit `int`, as `some i` when `err == nil` and
`none` when an error is returned (a syntax error: empty string, sign alone, a byte that is not
an ASCII digit; or a range error: value outside `minInt .. maxInt`). -/
def Atoi (s : String) : Option Int :=
  match s.toList with
  | [] => none
  | c :: cs =>
    if c = '+' then parseMagnitude false cs
    else if c = '-' then parseMagnitude true cs
    else parseMagnitude false (c :: cs)

/-- Go: `func getEnv(key, fallback string) string`. -/
def getEnv (env : Env) (key fallback : String) : String :=
  let val := Getenv env key
  if val = "" then fallback else val

/-- Go: `func getInt(key string, fallback int) int`, with the warning it logs. -/
def getInt (env : Env) (key : String) (fallback : Int) : Int × List LogLine :=
  let val := Getenv env key
  if val = "" then (fallback, [])
  else
    match Atoi val with
    | none => (fallback, [LogLine.invalidInt key val])
    | some i => (i, [])

/-- The state of the process as far as the loader is concerned: the environment, the package
variables `cfg` (a `*Config`) and `once` (has `once.Do` run its function), and the log. -/
structure Process where
  env : Env
  cfg : Option Config
  once : Bool
  log : List LogLine
  deriving DecidableEq, Repr

/-- The process at start-up: `cfg` is nil, `once` has not run, nothing is logged. -/
def Process.init (env : Env) : Process :=
  { env := env, cfg := none, once := false, log := [] }

/-- The composite literal `&Config{...}` of `LoadEnvConfig`, its calls evaluated in source
order, with the warnings they log. -/
def buildConfig (env : Env) : Config × List LogLine :=
  let appEnv : Environment := getEnv env "APP_ENV" "dev"
  let logLevel := getEnv env "APP_LOG_LEVEL" "info"
  let host := getEnv env "SERVER_HOST" "0.0.0.0"
  let port := getEnv env "SERVER_PORT" "8080"
  let rt := getInt env "SERVER_READ_TIMEOUT" 5
  let wt := getInt env "SERVER_WRITE_TIMEOUT" 10
  let dsn := getEnv env "MYSQL_DSN" ""
  let dbHost := getEnv env "DB_HOST" "localhost"
  let dbPort := getEnv env "DB_PORT" "3306"
  let dbUser := getEnv env "DB_USER" "root"
  let dbPassword := getEnv env "DB_PASSWORD" "password"
  let dbName := getEnv env "DB_NAME" "flag_zero"
  let addr := getEnv env "REDIS_ADDR" "localhost:6379"
  let password := getEnv env "REDIS_PASSWORD" ""
  let db := getInt env "REDIS_DB" 0
  ({ App := { Env := appEnv, LogLevel := logLevel }
     Server := { Host := host, Port := port, ReadTimeout := rt.1, WriteTimeout := wt.1 }
     Database := { MySQLDSN := dsn, Host := dbHost, Port := dbPort, User := dbUser,
                   Password := dbPassword, Name := dbName }
     Redis := { Addr := addr, Password := password, DB := db.1 } },
   rt.2 ++ wt.2 ++ db.2)

/-- The function passed to `once.Do` in `LoadEnvConfig`: load the `.env` file, warn when that
failed, build the Config from the environment and store it in `cfg`. -/
def loadOnce (godotenvLoad : Env → DotenvResult) (p : Process) : Process :=
  let r := godotenvLoad p.env
  let warn : List LogLine :=
    match r.err with
    | some e => [LogLine.dotenvNotLoaded e]
    | none => []
  let built := buildConfig r.env
  { env := r.env, cfg := some built.1, once := p.once, log := p.log ++ warn ++ built.2 }

/-- Go: `func LoadEnvConfig() *Config`: run `loadOnce` unless `once` has already run, then
return `cfg`. -/
def LoadEnvConfig (godotenvLoad : Env → DotenvResult) (p : Process) : Option Config × Process :=
  let p1 : Process := if p.once then p else { loadOnce godotenvLoad p with once := true }
  (p1.cfg, p1)

/-- One event in the life of the process: a call of `LoadEnvConfig`, or an arbitrary change of
the environment (the whole environment is replaced). -/
inductive Action where
  | load
  | setenv (env : Env)
  deriving DecidableEq, Repr

/-- Run one event; a call of `LoadEnvConfig` yields the pointer it returned. -/
def step (godotenvLoad : Env → DotenvResult) (p : Process) :
    Action → Process × Option (Option Config)
  | .load => let r := LoadEnvConfig godotenvLoad p; (r.2, some r.1)
  | .setenv env => ({ p with env := env }, none)

/-- Run a sequence of events; the second component lists what the calls of `LoadEnvConfig`
returned, in order. -/
def run (godotenvLoad : Env → DotenvResult) : Process → List Action → Process × List (Option Config)
  | p, [] => (p, [])
  | p, a :: as =>
    let r := step godotenvLoad p a
    let rest := run godotenvLoad r.1 as
    (rest.1, (match r.2 with | some c => [c] | none => []) ++ rest.2)

/-- The number of calls of `LoadEnvConfig` in a sequence of events. -/
def loadCount : List Action → Nat
  | [] => 0
  | .load :: as => loadCount as + 1
  | .setenv _ :: as => loadCount as

/-- The environment after a run of environment changes: the last one, if any. -/
def envAfter (env : Env) : List Env → Env
  | [] => env
  | e :: es => envAfter e es

/-! ## cmd/server/main.go -/

/-- How a call that may also end the process ends: a normal return, a panic, or `log.Fatalf`
(the message is logged and the process exits). -/
inductive Exit (α : Type) where
  | returned (a : α)
  | panicked (msg : String)
  | fatal (msg : String)
  deriving DecidableEq, Repr

/-- The state after `LoadConfig`: the process, whether `gin.SetMode(gin.ReleaseMode)` was
called, and how the call ended. -/
structure LoadConfigResult where
  process : Process
  releaseMode : Bool
  result : Exit (Option Config)
  deriving DecidableEq, Repr

/-- Go: `func LoadConfig() *config.Config`. `Validate` writes through the pointer that the
package variable `cfg` holds as well, so the process sees the updated Config. -/
def LoadConfig (godotenvLoad : Env → DotenvResult) (p : Process) : LoadConfigResult :=
  let r := LoadEnvConfig godotenvLoad p
  match r.1 with
  | none =>
    { process := r.2, releaseMode := false,
      result := .panicked "invalid memory address or nil pointer dereference" }
  | some cfg =>
    let v := cfg.Validate
    let p2 : Process := { r.2 with cfg := some v.1 }
    match v.2 with
    | .panicked msg => { process := p2, releaseMode := false, result := .panicked msg }
    | .returned (some err) =>
      { process := p2, releaseMode := false,
        result := .fatal ("Failed to validate config: " ++ err) }
    | .returned none =>
      { process := p2, releaseMode := decide (v.1.App.Env = EnvProduction),
        result := .returned (some v.1) }

/-- An HTTP request as far as the handlers could look at it. -/
structure Request where
  Method : String
  Path : String
  Header : List (String × String)
  Body : String
  deriving DecidableEq, Repr

/-- What a handler has written so far: status code, Content-Type header and body. -/
structure ResponseWriter where
  Status : Nat
  ContentType : String
  Body : String
  deriving DecidableEq, Repr

/-- Go (gin): `gin.Context`, the request and the response writer of one exchange. -/
structure Context where
  Request : Request
  Writer : ResponseWriter
  deriving DecidableEq, Repr

/-- The context gin hands to the handlers of a request: nothing written yet, status 200. -/
def Context.new (req : FlagZero.Request) : Context :=
  { Request := req, Writer := { Status := 200, ContentType := "", Body := "" } }

/-- A value stored in a `gin.H` by this program: a string or a boolean. -/
inductive HValue where
  | str (s : String)
  | bool (b : Bool)
  deriving DecidableEq, Repr

/-- Go (gin): `gin.H`, a `map[string]any`, as the list of its entries in key order. -/
abbrev H := List (String × HValue)

/-- JSON text of a string that holds no character that needs escaping. -/
def encodeString (s : String) : String :=
  "\"" ++ s ++ "\""

/-- JSON text of a value of a `gin.H`. -/
def HValue.encode : HValue → String
  | .str s => encodeString s
  | .bool true => "true"
  | .bool false => "false"

/-- JSON text of a `gin.H` as `encoding/json` writes a map: an object without white space. -/
def encodeH (obj : H) : String :=
  "\x7b" ++ ",".intercalate (obj.map fun kv => encodeString kv.1 ++ ":" ++ kv.2.encode) ++ "\x7d"

/-- Go (gin): `c.JSON(code, obj)`: set the status code and the JSON content type and write the
JSON text of `obj` to the body. -/
def Context.JSON (c : Context) (code : Nat) (obj : H) : Context :=
  { c with Writer := { Status := code, ContentType := "application/json; charset=utf-8",
                       Body := c.Writer.Body ++ encodeH obj } }

/-- Go: `http.StatusOK`. -/
def StatusOK : Nat := 200

/-- The middleware this program installs. -/
inductive Middleware where
  | Logger
  | Recovery
  deriving DecidableEq, Repr

/-- One registered route: method, path and handler. -/
structure RouteInfo where
  Method : String
  Path : String
  Handler : Context → Context

/-- Go (gin): `gin.Engine` as far as `Router` builds it: the middleware in the order of the
`Use` calls and the routes in the order of registration. -/
structure Engine where
  Handlers : List Middleware
  Routes : List RouteInfo

/-- Go (gin): `gin.New()`: no middleware, no route. -/
def Engine.New : Engine :=
  { Handlers := [], Routes := [] }

/-- Go (gin): `router.Use(m)`. -/
def Engine.Use (e : Engine) (m : Middleware) : Engine :=
  { e with Handlers := e.Handlers ++ [m] }

/-- Go (gin): `router.GET(path, handler)`. -/
def Engine.GET (e : Engine) (path : String) (handler : Context → Context) : Engine :=
  { e with Routes := e.Routes ++ [{ Method := "GET", Path := path, Handler := handler }] }

/-- The handler registered for a method and a path, if there is one. -/
def Engine.handlerFor (e : Engine) (method path : String) : Option (Context → Context) :=
  (e.Routes.find? fun r => r.Method == method && r.Path == path).map fun r => r.Handler

/-- The response of the registered handler to a request these handlers do not panic on, so
Logger and Recovery leave it alone; `none` when no route is registered for the request. -/
def Engine.serve (e : Engine) (req : Request) : Option ResponseWriter :=
  (e.handlerFor req.Method req.Path).map fun h => (h (Context.new req)).Writer

/-- Go: `func Router() *gin.Engine`. -/
def Router : Engine :=
  let router := Engine.New
  let router := router.Use Middleware.Logger
  let router := router.Use Middleware.Recovery
  let router := router.GET "/health" fun c => c.JSON StatusOK [("status", HValue.str "ok")]
  let router := router.GET "/ready" fun c => c.JSON StatusOK [("ready", HValue.bool true)]
  router

/-- Go standard library (1.9 and later; `signal.NotifyContext`, which `RunServer` calls, exists
from 1.16 on): `net.JoinHostPort(host, port)`: a host that contains a colon is taken for a
literal IPv6 address and put in square brackets. -/
def JoinHostPort (host port : String) : String :=
  if host.toList.contains ':' then "[" ++ host ++ "]:" ++ port else host ++ ":" ++ port

/-- The value of an integer as a Go `int64`: reduced modulo 2^64 into the signed range. -/
def wrapInt64 (n : Int) : Int :=
  (n + 2 ^ 63) % 2 ^ 64 - 2 ^ 63

/-- Go: `time.Second`, in nanoseconds. -/
def Second : Int := 1000000000

/-- Go: `time.Duration(n) * time.Second`, an `int64` product. -/
def seconds (n : Int) : Int :=
  wrapInt64 (wrapInt64 n * Second)

/-- Go: `http.Server`, the fields `HTTPServer` sets; durations are in nanoseconds. -/
structure Server (Handler : Type) where
  Addr : String
  Handler : Handler
  ReadTimeout : Int
  WriteTimeout : Int

/-- Go: `func HTTPServer(cfg *config.Config, handler http.Handler) *http.Server`. -/
def HTTPServer {Handler : Type} (cfg : Config) (handler : Handler) : Server Handler :=
  let addr := JoinHostPort cfg.Server.Host cfg.Server.Port
  { Addr := addr
    Handler := handler
    ReadTimeout := seconds cfg.Server.ReadTimeout
    WriteTimeout := seconds cfg.Server.WriteTimeout }

/-! ## Vocabulary of the statements -/

/-- A string field follows its variable: it holds the default when the variable is unset or set
to the empty string, and the value of the variable when that is a non-empty string. -/
def StringFieldFollows (e : Env) (key dflt field : String) : Prop :=
  ((e.lookup key = none ∨ e.lookup key = some "") → field = dflt)
  ∧ (∀ v : String, e.lookup key = some v → v ≠ "" → field = v)

/-- The number a run of decimal digits denotes. -/
def digitsValue (ds : List Char) : Nat :=
  ds.foldl (fun acc c => acc * 10 + (c.toNat - '0'.toNat)) 0

/-- The string is a valid base-10 integer of the `int` range and denotes `n`: one or more ASCII
digits, with an optional sign in front, whose value lies between `minInt` and `maxInt`. -/
def IsBase10Int (s : String) (n : Int) : Prop :=
  ∃ ds : List Char, ds ≠ [] ∧ (∀ c ∈ ds, c.isDigit = true)
    ∧ ((s.toList = ds ∧ n = (digitsValue ds : Int))
       ∨ (s.toList = '+' :: ds ∧ n = (digitsValue ds : Int))
       ∨ (s.toList = '-' :: ds ∧ n = -(digitsValue ds : Int)))
    ∧ minInt ≤ n ∧ n ≤ maxInt

/-- The variable holds a malformed integer: a non-empty string that is not a valid base-10
integer of the `int` range. -/
def Malformed (e : Env) (key : String) : Prop :=
  Getenv e key ≠ "" ∧ ¬ ∃ n : Int, IsBase10Int (Getenv e key) n

/-- An integer field follows its variable: it holds the default when the variable is unset or
set to the empty string, and the integer the value denotes when the value is a non-empty
string that is a valid base-10 integer. -/
def IntFieldFollows (e : Env) (key : String) (dflt field : Int) : Prop :=
  ((e.lookup key = none ∨ e.lookup key = some "") → field = dflt)
  ∧ (∀ (v : String) (n : Int), e.lookup key = some v → v ≠ "" → IsBase10Int v n → field = n)

/-! ## Concrete inputs -/

/-- A production Config with every required string present and Redis.DB = 0. -/
def prodConfigDBZero : Config :=
  { Server := { Host := "0.0.0.0", Port := "8080", ReadTimeout := 5, WriteTimeout := 10 }
    Database := { MySQLDSN := "user:pw@tcp(db:3306)/flags", Host := "localhost", Port := "3306",
                  User := "root", Password := "password", Name := "flag_zero" }
    Redis := { Addr := "redis:6379", Password := "s3cret", DB := 0 }
    App := { Env := "prod", LogLevel := "debug" } }

/-- A production Config that passes validation, with a log level other than `error`. -/
def prodConfigValid : Config :=
  { prodConfigDBZero with Redis := { Addr := "redis:6379", Password := "s3cret", DB := 1 } }

/-- A development Config in which every string is empty and every integer is zero. -/
def devConfigEmpty : Config :=
  { Server := { Host := "", Port := "", ReadTimeout := 0, WriteTimeout := 0 }
    Database := { MySQLDSN := "", Host := "", Port := "", User := "", Password := "", Name := "" }
    Redis := { Addr := "", Password := "", DB := 0 }
    App := { Env := "dev", LogLevel := "" } }

/-- An environment that selects an environment tag outside the two constants. -/
def stagingEnv : Env := [("APP_ENV", "staging")]

/-- A production environment with every required string set and a malformed REDIS_DB. -/
def prodEnvBadRedisDB : Env :=
  [("APP_ENV", "prod"), ("MYSQL_DSN", "user:pw@tcp(db:3306)/flags"), ("REDIS_ADDR", "redis:6379"),
   ("REDIS_PASSWORD", "s3cret"), ("REDIS_DB", "one")]

/-- An environment that selects the tag "production", not one of the two constants. -/
def productionEnv : Env := [("APP_ENV", "production")]

/-- A `.env` file that sets the port. -/
def portFile : Env := [("SERVER_PORT", "7000")]

/-- A production environment with the three required strings set and REDIS_DB unset. -/
def prodEnvNoRedisDB : Env :=
  [("APP_ENV", "prod"), ("MYSQL_DSN", "user:pw@tcp(db:3306)/flags"), ("REDIS_ADDR", "redis:6379"),
   ("REDIS_PASSWORD", "s3cret")]

/-- A `.env` file that sets the cache index. -/
def redisDBFile : Env := [("REDIS_DB", "3")]

/-- An environment in which APP_ENV=prod is the only variable set. -/
def onlyProdEnv : Env := [("APP_ENV", "prod")]

/-- A `.env` file that sets the four values production requires. -/
def requiredFile : Env :=
  [("MYSQL_DSN", "user:pw@tcp(db:3306)/flags"), ("REDIS_ADDR", "redis:6379"),
   ("REDIS_PASSWORD", "s3cret"), ("REDIS_DB", "3")]

/-- An environment whose three integer variables are malformed: a unit suffix, a value one
above the largest `int`, and a digit separator. -/
def malformedIntsEnv : Env :=
  [("SERVER_READ_TIMEOUT", "5s"), ("SERVER_WRITE_TIMEOUT", "9223372036854775808"),
   ("REDIS_DB", "1_0")]

/-- An environment in which every variable of the loader is set. -/
def fullEnv : Env :=
  [("APP_ENV", "prod"), ("APP_LOG_LEVEL", "debug"), ("SERVER_HOST", "127.0.0.1"),
   ("SERVER_PORT", "9090"), ("SERVER_READ_TIMEOUT", "30"), ("SERVER_WRITE_TIMEOUT", "+45"),
   ("MYSQL_DSN", "user:pw@tcp(db:3306)/flags"), ("REDIS_ADDR", "redis:6379"),
   ("REDIS_PASSWORD", "s3cret"), ("REDIS_DB", "2")]

/-- A Config whose host is a zone-scoped name: a percent sign and no colon. -/
def percentHostConfig : Config :=
  { devConfigEmpty with
    Server := { Host := "fe80%eth0", Port := "8080", ReadTimeout := 5, WriteTimeout := 10 } }

/-- A Config whose host is a literal IPv6 address. -/
def ipv6Config : Config :=
  { devConfigEmpty with
    Server := { Host := "::1", Port := "9090", ReadTimeout := 30, WriteTimeout := 45 } }

/-- The Config of a process that sets no variable. -/
def defaultConfig : Config :=
  (buildConfig []).1

/-- A request for the liveness route with a header and a body. -/
def healthRequest : Request :=
  { Method := "GET", Path := "/health", Header := [("X-Probe", "1")], Body := "ignored" }

/-! ## Theorems: `Validate` -/

/-- C1: for a Config whose App.Env is the production tag, Validate fails exactly when
Database.MySQLDSN, Redis.Addr or Redis.Password is empty or Redis.DB is 0; and with the three
strings non-empty and Redis.DB = 0 it panics with the REDIS_DB message. -/
theorem validate_prod_fails_iff (c : Config) (hprod : c.App.Env = EnvProduction) :
    (c.Validate.2.failed = true ↔
      (c.Database.MySQLDSN = "" ∨ c.Redis.Addr = "" ∨ c.Redis.Password = "" ∨ c.Redis.DB = 0))
    ∧ (c.Database.MySQLDSN ≠ "" → c.Redis.Addr ≠ "" → c.Redis.Password ≠ "" → c.Redis.DB = 0 →
        c.Validate.2 = .panicked "REDIS_DB is required in production") := by
  have hp : c.App.Env = "prod" := hprod
  constructor
  · unfold Config.Validate
    simp only [hp, if_true]
    by_cases h1 : c.Database.MySQLDSN = ""
    · simp [h1, Outcome.failed]
    · by_cases h2 : c.Redis.Addr = ""
      · simp [h1, h2, Outcome.failed]
      · by_cases h3 : c.Redis.Password = ""
        · simp [h1, h2, h3, Outcome.failed]
        · by_cases h4 : c.Redis.DB = 0
          · simp [h1, h2, h3, h4, Outcome.failed]
          · simp [h1, h2, h3, h4, Outcome.failed]
  · intro h1 h2 h3 h4
    unfold Config.Validate
    simp [hp, h1, h2, h3, h4]

/-- C1 at a concrete production Config with Redis.DB = 0: the call panics. -/
theorem validate_prod_fails_iff_witness :
    prodConfigDBZero.App.Env = EnvProduction
    ∧ prodConfigDBZero.Validate.2 = .panicked "REDIS_DB is required in production" :=
  ⟨by decide,
   (validate_prod_fails_iff prodConfigDBZero (by decide)).2
     (by decide) (by decide) (by decide) (by decide)⟩

/-- C2: for a Config whose App.Env is the production tag and on which Validate does not fail,
the Config after Validate is the Config before it with App.LogLevel replaced by "error", and
the call returns nil. -/
theorem validate_prod_forces_log_level (c : Config) (hprod : c.App.Env = EnvProduction)
    (hok : c.Validate.2.failed = false) :
    c.Validate.1 = { c with App := { c.App with LogLevel := "error" } }
    ∧ c.Validate.2 = .returned none := by
  have hp : c.App.Env = "prod" := hprod
  unfold Config.Validate at hok ⊢
  simp only [hp, if_true] at hok ⊢
  by_cases h1 : c.Database.MySQLDSN = ""
  · simp [h1, Outcome.failed] at hok
  · by_cases h2 : c.Redis.Addr = ""
    · simp [h1, h2, Outcome.failed] at hok
    · by_cases h3 : c.Redis.Password = ""
      · simp [h1, h2, h3, Outcome.failed] at hok
      · by_cases h4 : c.Redis.DB = 0
        · simp [h1, h2, h3, h4, Outcome.failed] at hok
        · simp [h1, h2, h3, h4]

/-- C2 at a concrete valid production Config whose log level was "debug". -/
theorem validate_prod_forces_log_level_witness :
    prodConfigValid.App.LogLevel = "debug"
    ∧ prodConfigValid.Validate.1
        = { prodConfigValid with App := { prodConfigValid.App with LogLevel := "error" } }
    ∧ prodConfigValid.Validate.2 = .returned none :=
  ⟨by decide, validate_prod_forces_log_level prodConfigValid (by decide) (by decide)⟩

/-- C3: for a Config whose App.Env is not the production tag, Validate returns nil without
panicking and leaves the Config as it was. -/
theorem validate_nonprod_never_fails (c : Config) (hnp : c.App.Env ≠ EnvProduction) :
    c.Validate = (c, .returned none) ∧ c.Validate.2.failed = false := by
  have hp : ¬ c.App.Env = "prod" := hnp
  unfold Config.Validate
  simp [hp, Outcome.failed]

/-- C3 at a development Config with every field empty or zero. -/
theorem validate_nonprod_never_fails_witness :
    devConfigEmpty.Validate = (devConfigEmpty, .returned none)
    ∧ devConfigEmpty.Validate.2.failed = false :=
  validate_nonprod_never_fails devConfigEmpty (by decide)

/-! ## Lemmas: the loader -/

/-- The digit loop succeeds exactly on runs of ASCII digits, with their decimal value. -/
theorem parseDigits_eq_some (ds : List Char) (acc m : Nat) :
    parseDigits ds acc = some m ↔
      (∀ c ∈ ds, c.isDigit = true)
      ∧ m = ds.foldl (fun a c => a * 10 + (c.toNat - '0'.toNat)) acc := by
  induction ds generalizing acc with
  | nil =>
    simp only [parseDigits, Option.some.injEq, List.not_mem_nil, false_imp_iff, implies_true,
      List.foldl_nil, true_and]
    exact eq_comm
  | cons c cs ih =>
    by_cases hc : c.isDigit = true
    · simp only [parseDigits, hc, if_true, ih, List.mem_cons, forall_eq_or_imp, List.foldl_cons,
        true_and]
    · simp only [parseDigits, hc, if_false, List.mem_cons, forall_eq_or_imp, false_and,
        Bool.false_eq_true]
      exact ⟨fun h => Option.noConfusion h, fun h => h.elim⟩

/-- The unsigned part parses exactly when it is a non-empty run of digits whose signed value
lies in the `int` range. -/
theorem parseMagnitude_eq_some (neg : Bool) (ds : List Char) (n : Int) :
    parseMagnitude neg ds = some n ↔
      ds ≠ [] ∧ (∀ c ∈ ds, c.isDigit = true)
      ∧ n = (if neg then -(digitsValue ds : Int) else (digitsValue ds : Int))
      ∧ minInt ≤ n ∧ n ≤ maxInt := by
  cases ds with
  | nil =>
    simp only [parseMagnitude, ne_eq, not_true_eq_false, false_and, iff_false]
    exact fun h => Option.noConfusion h
  | cons d ds' =>
    cases hp : parseDigits (d :: ds') 0 with
    | none =>
      have hnd : ¬ (∀ c ∈ d :: ds', c.isDigit = true) := by
        intro hall
        have := (parseDigits_eq_some (d :: ds') 0 _).2 ⟨hall, rfl⟩
        rw [hp] at this
        exact Option.noConfusion this
      simp only [parseMagnitude, hp]
      constructor
      · intro h
        exact Option.noConfusion h
      · intro h
        exact absurd h.2.1 hnd
    | some un =>
      obtain ⟨hall, hun⟩ := (parseDigits_eq_some (d :: ds') 0 un).1 hp
      have hv : digitsValue (d :: ds') = un := hun.symm
      have hne : d :: ds' ≠ [] := List.cons_ne_nil d ds'
      cases neg with
      | true =>
        simp only [parseMagnitude, hp, if_true, hv]
        by_cases hr : -(un : Int) < minInt
        · simp only [hr, if_true]
          constructor
          · intro h
            exact Option.noConfusion h
          · intro h
            obtain ⟨_, _, h3, h4, _⟩ := h
            rw [h3] at h4
            omega
        · simp only [hr, if_false, Option.some.injEq]
          constructor
          · intro h
            subst h
            refine ⟨hne, hall, rfl, by omega, ?_⟩
            unfold maxInt
            omega
          · intro h
            exact h.2.2.1.symm
      | false =>
        simp only [parseMagnitude, hp, Bool.false_eq_true, if_false, hv]
        by_cases hr : (un : Int) > maxInt
        · simp only [hr, if_true]
          constructor
          · intro h
            exact Option.noConfusion h
          · intro h
            obtain ⟨_, _, h3, _, h5⟩ := h
            rw [h3] at h5
            omega
        · simp only [hr, if_false, Option.some.injEq]
          constructor
          · intro h
            subst h
            refine ⟨hne, hall, rfl, ?_, by omega⟩
            unfold minInt
            omega
          · intro h
            exact h.2.2.1.symm

/-- `Atoi` returns `n` without error exactly on the valid base-10 integers denoting `n`. -/
theorem Atoi_eq_some_iff (s : String) (n : Int) : Atoi s = some n ↔ IsBase10Int s n := by
  unfold Atoi IsBase10Int
  cases hs : s.toList with
  | nil =>
    constructor
    · intro h
      exact Option.noConfusion h
    · rintro ⟨ds, hne, _, h | h | h, _⟩
      · exact absurd h.1.symm hne
      · exact List.noConfusion h.1
      · exact List.noConfusion h.1
  | cons c cs =>
    simp only
    by_cases hplus : c = '+'
    · subst hplus
      simp only [if_true, parseMagnitude_eq_some, Bool.false_eq_true, if_false]
      constructor
      · rintro ⟨h1, h2, h3, h4, h5⟩
        exact ⟨cs, h1, h2, Or.inr (Or.inl ⟨rfl, h3⟩), h4, h5⟩
      · rintro ⟨ds, hne, hall, h | h | h, h4, h5⟩
        · exfalso
          have := hall '+' (by rw [← h.1]; simp)
          revert this; decide
        · obtain ⟨he, hn⟩ := h
          have : cs = ds := (List.cons.inj he).2
          subst this
          exact ⟨hne, hall, hn, h4, h5⟩
        · exfalso
          have := (List.cons.inj h.1).1
          revert this; decide
    · by_cases hminus : c = '-'
      · subst hminus
        simp only [hplus, if_false, if_true, parseMagnitude_eq_some]
        constructor
        · rintro ⟨h1, h2, h3, h4, h5⟩
          exact ⟨cs, h1, h2, Or.inr (Or.inr ⟨rfl, h3⟩), h4, h5⟩
        · rintro ⟨ds, hne, hall, h | h | h, h4, h5⟩
          · exfalso
            have := hall '-' (by rw [← h.1]; simp)
            revert this; decide
          · exfalso
            have := (List.cons.inj h.1).1
            revert this; decide
          · obtain ⟨he, hn⟩ := h
            have : cs = ds := (List.cons.inj he).2
            subst this
            exact ⟨hne, hall, hn, h4, h5⟩
      · simp only [hplus, hminus, if_false, parseMagnitude_eq_some, Bool.false_eq_true]
        constructor
        · rintro ⟨h1, h2, h3, h4, h5⟩
          exact ⟨c :: cs, h1, h2, Or.inl ⟨rfl, h3⟩, h4, h5⟩
        · rintro ⟨ds, hne, hall, h | h | h, h4, h5⟩
          · obtain ⟨he, hn⟩ := h
            subst he
            exact ⟨hne, hall, hn, h4, h5⟩
          · exact absurd (List.cons.inj h.1).1 hplus
          · exact absurd (List.cons.inj h.1).1 hminus

/-- `Atoi` returns an error exactly on the strings that are not valid base-10 integers. -/
theorem Atoi_eq_none_iff (s : String) : Atoi s = none ↔ ¬ ∃ n : Int, IsBase10Int s n := by
  constructor
  · rintro h ⟨n, hn⟩
    rw [(Atoi_eq_some_iff s n).2 hn] at h
    exact Option.noConfusion h
  · intro h
    cases ha : Atoi s with
    | none => rfl
    | some n => exact absurd ⟨n, (Atoi_eq_some_iff s n).1 ha⟩ h

/-- In production a missing required value makes Validate fail; with only Redis.DB missing
the panic is the REDIS_DB one. -/
theorem validate_fails_of_missing (c : Config) (hp : c.App.Env = "prod") :
    ((c.Database.MySQLDSN = "" ∨ c.Redis.Addr = "" ∨ c.Redis.Password = "" ∨ c.Redis.DB = 0) →
      c.Validate.2.failed = true)
    ∧ (c.Database.MySQLDSN ≠ "" → c.Redis.Addr ≠ "" → c.Redis.Password ≠ "" → c.Redis.DB = 0 →
        c.Validate.2 = .panicked "REDIS_DB is required in production") := by
  constructor
  · intro h
    unfold Config.Validate
    simp only [hp, if_true]
    by_cases h1 : c.Database.MySQLDSN = ""
    · simp [h1, Outcome.failed]
    · by_cases h2 : c.Redis.Addr = ""
      · simp [h1, h2, Outcome.failed]
      · by_cases h3 : c.Redis.Password = ""
        · simp [h1, h2, h3, Outcome.failed]
        · by_cases h4 : c.Redis.DB = 0
          · simp [h1, h2, h3, h4, Outcome.failed]
          · rcases h with h | h | h | h <;> contradiction
  · intro h1 h2 h3 h4
    unfold Config.Validate
    simp [hp, h1, h2, h3, h4]

/-- A call of Validate that returns, returns nil. -/
theorem validate_returns_nil (c : Config) (err : Option String)
    (h : c.Validate.2 = .returned err) : err = none := by
  dsimp only [Config.Validate] at h
  split_ifs at h <;> simp at h <;> exact h.symm

theorem Getenv_of_unset {e : Env} {key : String}
    (h : e.lookup key = none ∨ e.lookup key = some "") : Getenv e key = "" := by
  rcases h with h | h <;> simp [Getenv, h]

theorem Getenv_of_set {e : Env} {key v : String} (h : e.lookup key = some v) :
    Getenv e key = v := by
  simp [Getenv, h]

theorem getEnv_follows (e : Env) (key dflt : String) :
    StringFieldFollows e key dflt (getEnv e key dflt) := by
  constructor
  · intro h
    simp [getEnv, Getenv_of_unset h]
  · intro v hv hne
    simp [getEnv, Getenv_of_set hv, hne]

theorem getInt_follows (e : Env) (key : String) (dflt : Int) :
    IntFieldFollows e key dflt (getInt e key dflt).1 := by
  constructor
  · intro h
    simp [getInt, Getenv_of_unset h]
  · intro v n hv hne hn
    simp [getInt, Getenv_of_set hv, hne, (Atoi_eq_some_iff v n).2 hn]

/-! ## Lemmas: sequences of calls -/

/-- Environment changes before anything else only move the environment. -/
theorem run_setenvs (godotenvLoad : Env → DotenvResult) (p : Process) (pre : List Env)
    (as : List Action) :
    run godotenvLoad p (pre.map Action.setenv ++ as)
      = run godotenvLoad { p with env := envAfter p.env pre } as := by
  induction pre generalizing p with
  | nil => rfl
  | cons e es ih =>
    simp only [List.map_cons, List.cons_append, run, step, List.nil_append]
    exact ih { p with env := e }

/-- Once `once` has run, every call returns the cached pointer and neither `cfg` nor the log
changes. -/
theorem run_after_once (godotenvLoad : Env → DotenvResult) (p : Process) (as : List Action)
    (hdone : p.once = true) :
    (run godotenvLoad p as).2 = List.replicate (loadCount as) p.cfg
    ∧ (run godotenvLoad p as).1.cfg = p.cfg
    ∧ (run godotenvLoad p as).1.once = true
    ∧ (run godotenvLoad p as).1.log = p.log := by
  induction as generalizing p with
  | nil => exact ⟨rfl, rfl, hdone, rfl⟩
  | cons a as ih =>
    cases a with
    | load =>
      have hstep : LoadEnvConfig godotenvLoad p = (p.cfg, p) := by
        simp [LoadEnvConfig, hdone]
      obtain ⟨h1, h2, h3, h4⟩ := ih p hdone
      simp only [run, step, hstep, loadCount, List.replicate_succ, List.singleton_append]
      exact ⟨by rw [h1], h2, h3, h4⟩
    | setenv e =>
      obtain ⟨h1, h2, h3, h4⟩ := ih { p with env := e } hdone
      simp only [run, step, loadCount, List.nil_append]
      exact ⟨h1, h2, h3, h4⟩

/-- Converting to `int64` before multiplying does not change the 64-bit product. -/
theorem wrapInt64_mul_Second (n : Int) :
    wrapInt64 (wrapInt64 n * Second) = wrapInt64 (n * 1000000000) := by
  unfold wrapInt64 Second
  omega

/-- An integer of the 64-bit range is its own `int64` value. -/
theorem wrapInt64_of_inRange (n : Int) (hlo : minInt ≤ n) (hhi : n ≤ maxInt) :
    wrapInt64 n = n := by
  unfold wrapInt64
  unfold minInt at hlo
  unfold maxInt at hhi
  omega

/-! ## Theorems: the loader -/

/-- C4, as stated, fails: in a process whose environment leaves SERVER_PORT unset and whose
.env file holds SERVER_PORT=7000, the loaded Config has the port 7000, not the default 8080. -/
theorem load_default_replaced_by_dotenv :
    ([] : Env).lookup "SERVER_PORT" = none
    ∧ (LoadEnvConfig (dotenvFile portFile) (Process.init [])).1.map (fun c => c.Server.Port)
        = some "7000"
    ∧ (LoadEnvConfig (dotenvFile portFile) (Process.init [])).1.map (fun c => c.Server.Port)
        ≠ some "8080" := by
  decide

/-- C4, amended: on the first call of LoadEnvConfig every field of the loaded Config follows
its own variable in the environment as godotenv.Load leaves it (the process environment with
the entries of the .env file merged in): the documented default when the variable is unset
or empty there, the value of the variable when it is a non-empty string (the parsed integer
for the three integer fields), independently of the other variables. -/
theorem load_fields_follow_variables (godotenvLoad : Env → DotenvResult) (env : Env) :
    ∃ cfg : Config,
      (LoadEnvConfig godotenvLoad (Process.init env)).1 = some cfg
      ∧ StringFieldFollows (godotenvLoad env).env "APP_ENV" "dev" cfg.App.Env
      ∧ StringFieldFollows (godotenvLoad env).env "APP_LOG_LEVEL" "info" cfg.App.LogLevel
      ∧ StringFieldFollows (godotenvLoad env).env "SERVER_HOST" "0.0.0.0" cfg.Server.Host
      ∧ StringFieldFollows (godotenvLoad env).env "SERVER_PORT" "8080" cfg.Server.Port
      ∧ IntFieldFollows (godotenvLoad env).env "SERVER_READ_TIMEOUT" 5 cfg.Server.ReadTimeout
      ∧ IntFieldFollows (godotenvLoad env).env "SERVER_WRITE_TIMEOUT" 10 cfg.Server.WriteTimeout
      ∧ StringFieldFollows (godotenvLoad env).env "MYSQL_DSN" "" cfg.Database.MySQLDSN
      ∧ StringFieldFollows (godotenvLoad env).env "DB_HOST" "localhost" cfg.Database.Host
      ∧ StringFieldFollows (godotenvLoad env).env "DB_PORT" "3306" cfg.Database.Port
      ∧ StringFieldFollows (godotenvLoad env).env "DB_USER" "root" cfg.Database.User
      ∧ StringFieldFollows (godotenvLoad env).env "DB_PASSWORD" "password" cfg.Database.Password
      ∧ StringFieldFollows (godotenvLoad env).env "DB_NAME" "flag_zero" cfg.Database.Name
      ∧ StringFieldFollows (godotenvLoad env).env "REDIS_ADDR" "localhost:6379" cfg.Redis.Addr
      ∧ StringFieldFollows (godotenvLoad env).env "REDIS_PASSWORD" "" cfg.Redis.Password
      ∧ IntFieldFollows (godotenvLoad env).env "REDIS_DB" 0 cfg.Redis.DB := by
  refine ⟨(buildConfig (godotenvLoad env).env).1, rfl, ?_⟩
  exact ⟨getEnv_follows _ _ _, getEnv_follows _ _ _, getEnv_follows _ _ _, getEnv_follows _ _ _,
    getInt_follows _ _ _, getInt_follows _ _ _, getEnv_follows _ _ _, getEnv_follows _ _ _,
    getEnv_follows _ _ _, getEnv_follows _ _ _, getEnv_follows _ _ _, getEnv_follows _ _ _,
    getEnv_follows _ _ _, getEnv_follows _ _ _, getInt_follows _ _ _⟩

/-- C4, amended, at a process environment that sets APP_ENV=prod, SERVER_PORT=9090 and
SERVER_WRITE_TIMEOUT=+45 and leaves DB_HOST unset, with a .env file that holds
SERVER_PORT=7000: the loaded Config holds prod, 9090, 45 and the default localhost. -/
theorem load_fields_follow_variables_witness :
    ∃ cfg : Config,
      (LoadEnvConfig (dotenvFile portFile) (Process.init fullEnv)).1 = some cfg
      ∧ cfg.App.Env = "prod" ∧ cfg.Server.Port = "9090" ∧ cfg.Server.WriteTimeout = 45
      ∧ cfg.Database.Host = "localhost" := by
  obtain ⟨cfg, hcfg, hEnv, _, _, hPort, _, hWT, _, hDBHost, _⟩ :=
    load_fields_follow_variables (dotenvFile portFile) fullEnv
  exact ⟨cfg, hcfg, hEnv.2 "prod" (by decide) (by decide),
    hPort.2 "9090" (by decide) (by decide),
    hWT.2 "+45" 45 (by decide) (by decide) ((Atoi_eq_some_iff _ _).1 (by decide)),
    hDBHost.1 (Or.inl (by decide))⟩

/-- C9 at the failing input: with APP_ENV=production in the process environment and no .env
file, LoadEnvConfig returns a Config whose environment tag is "production", neither
EnvDevelopment nor EnvProduction, and LoadConfig returns it without any production check
although MYSQL_DSN is empty. -/
theorem load_env_tag_outside_enumeration :
    (LoadEnvConfig noDotenvFile (Process.init productionEnv)).1
      = some (buildConfig productionEnv).1
    ∧ (buildConfig productionEnv).1.App.Env = "production"
    ∧ ¬ ((buildConfig productionEnv).1.App.Env = EnvDevelopment
         ∨ (buildConfig productionEnv).1.App.Env = EnvProduction)
    ∧ (buildConfig productionEnv).1.Database.MySQLDSN = ""
    ∧ (LoadConfig noDotenvFile (Process.init productionEnv)).result
        = .returned (some (buildConfig productionEnv).1) := by
  refine ⟨rfl, ?_, ?_, ?_, ?_⟩ <;> decide

/-- The environment tag of the loaded Config is the value APP_ENV has once godotenv.Load has
returned when that is a non-empty string, and EnvDevelopment otherwise; it is one of the two
constants exactly when APP_ENV reads as empty, "dev" or "prod" there. -/
theorem load_env_tag_is_app_env (godotenvLoad : Env → DotenvResult) (env : Env) :
    ∃ cfg : Config,
      (LoadEnvConfig godotenvLoad (Process.init env)).1 = some cfg
      ∧ cfg.App.Env = (if Getenv (godotenvLoad env).env "APP_ENV" = "" then EnvDevelopment
                       else Getenv (godotenvLoad env).env "APP_ENV")
      ∧ ((cfg.App.Env = EnvDevelopment ∨ cfg.App.Env = EnvProduction) ↔
          (Getenv (godotenvLoad env).env "APP_ENV" = ""
           ∨ Getenv (godotenvLoad env).env "APP_ENV" = "dev"
           ∨ Getenv (godotenvLoad env).env "APP_ENV" = "prod")) := by
  refine ⟨(buildConfig (godotenvLoad env).env).1, rfl, rfl, ?_⟩
  show (getEnv _ "APP_ENV" "dev" = "dev" ∨ getEnv _ "APP_ENV" "dev" = "prod") ↔ _
  unfold getEnv
  by_cases h : Getenv (godotenvLoad env).env "APP_ENV" = ""
  · simp [h]
  · simp [h]

/-- C5: for every key, fallback and environment in which the key holds a non-empty string that
is not a valid base-10 integer of the int range, getInt returns the fallback (and logs one
warning); hence LoadEnvConfig returns a Config, with 5, 10 and 0 for a malformed
SERVER_READ_TIMEOUT, SERVER_WRITE_TIMEOUT and REDIS_DB. -/
theorem malformed_int_falls_back (godotenvLoad : Env → DotenvResult) (env : Env) :
    (∀ (e : Env) (key : String) (fallback : Int), Malformed e key →
        getInt e key fallback = (fallback, [LogLine.invalidInt key (Getenv e key)]))
    ∧ ∃ cfg : Config,
        (LoadEnvConfig godotenvLoad (Process.init env)).1 = some cfg
        ∧ (Malformed (godotenvLoad env).env "SERVER_READ_TIMEOUT" → cfg.Server.ReadTimeout = 5)
        ∧ (Malformed (godotenvLoad env).env "SERVER_WRITE_TIMEOUT" → cfg.Server.WriteTimeout = 10)
        ∧ (Malformed (godotenvLoad env).env "REDIS_DB" → cfg.Redis.DB = 0) := by
  have key : ∀ (e : Env) (key : String) (fallback : Int), Malformed e key →
      getInt e key fallback = (fallback, [LogLine.invalidInt key (Getenv e key)]) := by
    intro e key fallback h
    have hnone : Atoi (Getenv e key) = none := (Atoi_eq_none_iff _).2 h.2
    simp [getInt, h.1, hnone]
  refine ⟨key, (buildConfig (godotenvLoad env).env).1, rfl, ?_, ?_, ?_⟩
  · intro h
    show (getInt _ "SERVER_READ_TIMEOUT" 5).1 = 5
    rw [key _ _ _ h]
  · intro h
    show (getInt _ "SERVER_WRITE_TIMEOUT" 10).1 = 10
    rw [key _ _ _ h]
  · intro h
    show (getInt _ "REDIS_DB" 0).1 = 0
    rw [key _ _ _ h]

/-- C5 at SERVER_WRITE_TIMEOUT=9223372036854775808, one above the largest int: the variable is
malformed and getInt returns the fallback 10. -/
theorem malformed_int_falls_back_witness :
    Malformed malformedIntsEnv "SERVER_WRITE_TIMEOUT"
    ∧ getInt malformedIntsEnv "SERVER_WRITE_TIMEOUT" 10
        = (10, [LogLine.invalidInt "SERVER_WRITE_TIMEOUT" "9223372036854775808"]) :=
  have hm : Malformed malformedIntsEnv "SERVER_WRITE_TIMEOUT" :=
    ⟨by decide, (Atoi_eq_none_iff _).1 (by decide)⟩
  ⟨hm, (malformed_int_falls_back noDotenvFile malformedIntsEnv).1
        malformedIntsEnv "SERVER_WRITE_TIMEOUT" 10 hm⟩

/-- C10, as stated, fails: with APP_ENV=prod and the three required strings set in the process
environment, REDIS_DB unset there and REDIS_DB=3 in the .env file, LoadEnvConfig loads the
index 3 and Validate returns nil; and with APP_ENV=prod the only variable of the process
environment and the four required values in the .env file, Validate returns nil as well. -/
theorem prod_unset_redis_db_filled_by_dotenv :
    Getenv prodEnvNoRedisDB "APP_ENV" = "prod"
    ∧ prodEnvNoRedisDB.lookup "REDIS_DB" = none
    ∧ (LoadEnvConfig (dotenvFile redisDBFile) (Process.init prodEnvNoRedisDB)).1.map
        (fun c => c.Redis.DB) = some 3
    ∧ (LoadEnvConfig (dotenvFile redisDBFile) (Process.init prodEnvNoRedisDB)).1.map
        (fun c => c.Validate.2) = some (.returned none)
    ∧ (LoadEnvConfig (dotenvFile requiredFile) (Process.init onlyProdEnv)).1.map
        (fun c => c.Validate.2) = some (.returned none) := by
  decide

/-- C10, amended: when, in the environment as godotenv.Load leaves it, APP_ENV reads "prod" and
REDIS_DB is unset, empty, a string denoting 0, or malformed, LoadEnvConfig followed by
Validate fails and LoadConfig panics; with MYSQL_DSN, REDIS_ADDR and REDIS_PASSWORD non-empty
there the panic is the REDIS_DB one; and when APP_ENV = "prod" is the only variable set
there, it is the MYSQL_DSN one. -/
theorem prod_redis_db_zero_or_malformed_fails (godotenvLoad : Env → DotenvResult) (env : Env)
    (hprod : Getenv (godotenvLoad env).env "APP_ENV" = "prod") :
    ((Getenv (godotenvLoad env).env "REDIS_DB" = ""
        ∨ IsBase10Int (Getenv (godotenvLoad env).env "REDIS_DB") 0
        ∨ Malformed (godotenvLoad env).env "REDIS_DB") →
      (∃ cfg : Config, (LoadEnvConfig godotenvLoad (Process.init env)).1 = some cfg
          ∧ cfg.Validate.2.failed = true)
      ∧ (∃ msg : String, (LoadConfig godotenvLoad (Process.init env)).result = .panicked msg)
      ∧ (Getenv (godotenvLoad env).env "MYSQL_DSN" ≠ "" →
         Getenv (godotenvLoad env).env "REDIS_ADDR" ≠ "" →
         Getenv (godotenvLoad env).env "REDIS_PASSWORD" ≠ "" →
         (LoadConfig godotenvLoad (Process.init env)).result
           = .panicked "REDIS_DB is required in production"))
    ∧ ((∀ key : String, key ≠ "APP_ENV" → Getenv (godotenvLoad env).env key = "") →
        (LoadConfig godotenvLoad (Process.init env)).result
          = .panicked "MYSQL_DSN is required in production") := by
  have hcfg : (LoadEnvConfig godotenvLoad (Process.init env)).1
      = some (buildConfig (godotenvLoad env).env).1 := rfl
  have henv : (buildConfig (godotenvLoad env).env).1.App.Env = "prod" := by
    show getEnv _ "APP_ENV" "dev" = "prod"
    simp [getEnv, hprod]
  have hres : ∀ msg : String,
      (buildConfig (godotenvLoad env).env).1.Validate.2 = .panicked msg →
      (LoadConfig godotenvLoad (Process.init env)).result = .panicked msg := by
    intro msg h
    simp only [LoadConfig, hcfg, h]
  constructor
  · intro hdb
    have hzero : (buildConfig (godotenvLoad env).env).1.Redis.DB = 0 := by
      show (getInt _ "REDIS_DB" 0).1 = 0
      rcases hdb with h | h | h
      · simp [getInt, h]
      · have := (Atoi_eq_some_iff _ _).2 h
        by_cases he : Getenv (godotenvLoad env).env "REDIS_DB" = ""
        · simp [getInt, he]
        · simp [getInt, he, this]
      · have := (Atoi_eq_none_iff _).2 h.2
        simp [getInt, h.1, this]
    have hfail := (validate_fails_of_missing (buildConfig (godotenvLoad env).env).1 henv).1
      (Or.inr (Or.inr (Or.inr hzero)))
    refine ⟨⟨_, hcfg, hfail⟩, ?_, ?_⟩
    · cases hv : (buildConfig (godotenvLoad env).env).1.Validate.2 with
      | panicked msg => exact ⟨msg, hres msg hv⟩
      | returned err =>
        exfalso
        have hnone := validate_returns_nil (buildConfig (godotenvLoad env).env).1 err hv
        rw [hv, hnone] at hfail
        exact Bool.noConfusion hfail
    · intro h1 h2 h3
      apply hres
      refine (validate_fails_of_missing (buildConfig (godotenvLoad env).env).1 henv).2 ?_ ?_ ?_ hzero
      · show getEnv _ "MYSQL_DSN" "" ≠ ""
        simpa [getEnv] using h1
      · show getEnv _ "REDIS_ADDR" "localhost:6379" ≠ ""
        simp [getEnv, h2]
      · show getEnv _ "REDIS_PASSWORD" "" ≠ ""
        simpa [getEnv] using h3
  · intro honly
    apply hres
    have hdsn : (buildConfig (godotenvLoad env).env).1.Database.MySQLDSN = "" := by
      show getEnv _ "MYSQL_DSN" "" = ""
      simp [getEnv, honly "MYSQL_DSN" (by decide)]
    unfold Config.Validate
    simp [henv, hdsn]

/-- C10, amended, at a production environment with the three required strings set and
REDIS_DB=one, without a .env file:
LoadConfig panics with the REDIS_DB message. -/
theorem prod_redis_db_zero_or_malformed_fails_witness :
    Getenv (noDotenvFile prodEnvBadRedisDB).env "APP_ENV" = "prod"
    ∧ Malformed (noDotenvFile prodEnvBadRedisDB).env "REDIS_DB"
    ∧ (LoadConfig noDotenvFile (Process.init prodEnvBadRedisDB)).result
        = .panicked "REDIS_DB is required in production" :=
  have hm : Malformed (noDotenvFile prodEnvBadRedisDB).env "REDIS_DB" :=
    ⟨by decide, (Atoi_eq_none_iff _).1 (by decide)⟩
  ⟨by decide, hm,
   ((prod_redis_db_zero_or_malformed_fails noDotenvFile prodEnvBadRedisDB (by decide)).1
      (Or.inr (Or.inr hm))).2.2 (by decide) (by decide) (by decide)⟩

/-! ## Theorems: the singleton -/

/-- C6: start a process, change the environment any number of times, call LoadEnvConfig, then
run any sequence of further calls and environment changes. Every call returns the Config that
the first call built from the environment as it was at the first call; at the end the cached
Config is still that one, and the later calls logged nothing (no second read of the .env file
or of the variables). -/
theorem load_is_singleton (godotenvLoad : Env → DotenvResult) (env : Env) (pre : List Env)
    (rest : List Action) :
    (run godotenvLoad (Process.init env) (pre.map Action.setenv ++ Action.load :: rest)).2
      = List.replicate (loadCount rest + 1)
          (some (buildConfig (godotenvLoad (envAfter env pre)).env).1)
    ∧ (LoadEnvConfig godotenvLoad (Process.init (envAfter env pre))).1
        = some (buildConfig (godotenvLoad (envAfter env pre)).env).1
    ∧ (run godotenvLoad (Process.init env) (pre.map Action.setenv ++ Action.load :: rest)).1.cfg
        = some (buildConfig (godotenvLoad (envAfter env pre)).env).1
    ∧ (run godotenvLoad (Process.init env) (pre.map Action.setenv ++ Action.load :: rest)).1.log
        = (LoadEnvConfig godotenvLoad (Process.init (envAfter env pre))).2.log := by
  rw [run_setenvs]
  have hinit : ({ Process.init env with env := envAfter (Process.init env).env pre } : Process)
      = Process.init (envAfter env pre) := rfl
  rw [hinit]
  have hdone : (LoadEnvConfig godotenvLoad (Process.init (envAfter env pre))).2.once = true := rfl
  obtain ⟨h1, h2, _, h4⟩ := run_after_once godotenvLoad
    (LoadEnvConfig godotenvLoad (Process.init (envAfter env pre))).2 rest hdone
  simp only [run, step, List.singleton_append, List.replicate_succ]
  refine ⟨?_, rfl, ?_, h4⟩
  · rw [h1]
    rfl
  · rw [h2]
    rfl

/-- C6 at a concrete run: the environment is set to APP_ENV=staging, LoadEnvConfig is called,
the environment is replaced by a production one, LoadEnvConfig is called again; both calls
return the Config built from the staging environment. -/
theorem load_is_singleton_witness :
    (run noDotenvFile (Process.init [])
        [Action.setenv stagingEnv, Action.load, Action.setenv fullEnv, Action.load]).2
      = [some (buildConfig stagingEnv).1, some (buildConfig stagingEnv).1] :=
  (load_is_singleton noDotenvFile [] [stagingEnv] [Action.setenv fullEnv, Action.load]).1

/-! ## Theorems: the server factory and the router -/

/-- C7, as stated, fails: a host that contains a percent sign and no colon is not wrapped in
square brackets; for the host fe80%eth0 and the port 8080 the address is fe80%eth0:8080. -/
theorem http_server_percent_host_not_bracketed :
    percentHostConfig.Server.Host.toList.contains '%' = true
    ∧ (HTTPServer percentHostConfig ()).Addr = "fe80%eth0:8080"
    ∧ (HTTPServer percentHostConfig ()).Addr ≠ "[fe80%eth0]:8080" := by
  decide

/-- C7, amended: HTTPServer returns a server whose Addr is host and port joined with a colon,
the host in square brackets exactly when it contains a colon; whose ReadTimeout and
WriteTimeout are the configured integers times 1,000,000,000 as a 64-bit integer, which is the
exact product when that fits; and whose Handler is the given handler. For the default
settings this is 0.0.0.0:8080, 5 s and 10 s. -/
theorem http_server_fields {Handler : Type} (cfg : Config) (handler : Handler) :
    (HTTPServer cfg handler).Addr
      = (if ':' ∈ cfg.Server.Host.toList then "[" ++ cfg.Server.Host ++ "]:" ++ cfg.Server.Port
         else cfg.Server.Host ++ ":" ++ cfg.Server.Port)
    ∧ (HTTPServer cfg handler).ReadTimeout = wrapInt64 (cfg.Server.ReadTimeout * 1000000000)
    ∧ (HTTPServer cfg handler).WriteTimeout = wrapInt64 (cfg.Server.WriteTimeout * 1000000000)
    ∧ (minInt ≤ cfg.Server.ReadTimeout * 1000000000 →
        cfg.Server.ReadTimeout * 1000000000 ≤ maxInt →
        (HTTPServer cfg handler).ReadTimeout = cfg.Server.ReadTimeout * 1000000000)
    ∧ (minInt ≤ cfg.Server.WriteTimeout * 1000000000 →
        cfg.Server.WriteTimeout * 1000000000 ≤ maxInt →
        (HTTPServer cfg handler).WriteTimeout = cfg.Server.WriteTimeout * 1000000000)
    ∧ (HTTPServer cfg handler).Handler = handler
    ∧ (HTTPServer defaultConfig handler).Addr = "0.0.0.0:8080"
    ∧ (HTTPServer defaultConfig handler).ReadTimeout = 5 * 1000000000
    ∧ (HTTPServer defaultConfig handler).WriteTimeout = 10 * 1000000000 := by
  refine ⟨?_, wrapInt64_mul_Second _, wrapInt64_mul_Second _, ?_, ?_, rfl, ?_, ?_, ?_⟩
  · simp [HTTPServer, JoinHostPort]
  · intro hlo hhi
    show seconds _ = _
    unfold seconds
    rw [wrapInt64_mul_Second, wrapInt64_of_inRange _ hlo hhi]
  · intro hlo hhi
    show seconds _ = _
    unfold seconds
    rw [wrapInt64_mul_Second, wrapInt64_of_inRange _ hlo hhi]
  · show JoinHostPort defaultConfig.Server.Host defaultConfig.Server.Port = _
    decide
  · show seconds defaultConfig.Server.ReadTimeout = _
    decide
  · show seconds defaultConfig.Server.WriteTimeout = _
    decide

/-- C7, amended, at a Config with a literal IPv6 host and timeouts of 30 and 45 seconds. -/
theorem http_server_fields_witness :
    (HTTPServer ipv6Config ()).Addr = "[::1]:9090"
    ∧ (HTTPServer ipv6Config ()).ReadTimeout = 30 * 1000000000 :=
  ⟨by decide,
   (http_server_fields ipv6Config ()).2.2.2.1 (by decide) (by decide)⟩

/-- C8: Router registers exactly two routes, GET /health and GET /ready, behind Logger and
Recovery; every GET /health request, whatever its headers and body, is answered with status
200 and the JSON body with status ok, every GET /ready request with status 200 and the JSON
body with ready true; the two handlers are functions of nothing but the request context. -/
theorem router_routes_and_responses :
    Router.Routes.map (fun r => (r.Method, r.Path)) = [("GET", "/health"), ("GET", "/ready")]
    ∧ Router.Handlers = [Middleware.Logger, Middleware.Recovery]
    ∧ (∀ req : Request, req.Method = "GET" → req.Path = "/health" →
        Router.serve req
          = some { Status := 200, ContentType := "application/json; charset=utf-8",
                   Body := "\x7b\"status\":\"ok\"\x7d" })
    ∧ (∀ req : Request, req.Method = "GET" → req.Path = "/ready" →
        Router.serve req
          = some { Status := 200, ContentType := "application/json; charset=utf-8",
                   Body := "\x7b\"ready\":true\x7d" })
    ∧ (∀ req : Request, Router.serve req ≠ none →
        req.Method = "GET" ∧ (req.Path = "/health" ∨ req.Path = "/ready")) := by
  refine ⟨rfl, rfl, ?_, ?_, ?_⟩
  · intro req hm hp
    have hh : Router.handlerFor "GET" "/health"
        = some fun c => c.JSON StatusOK [("status", HValue.str "ok")] := by
      simp [Engine.handlerFor, Router, Engine.GET, Engine.Use, Engine.New]
    simp only [Engine.serve, hm, hp, hh, Option.map_some', Context.JSON, Context.new]
    decide
  · intro req hm hp
    have hh : Router.handlerFor "GET" "/ready"
        = some fun c => c.JSON StatusOK [("ready", HValue.bool true)] := by
      simp [Engine.handlerFor, Router, Engine.GET, Engine.Use, Engine.New]
    simp only [Engine.serve, hm, hp, hh, Option.map_some', Context.JSON, Context.new]
    decide
  · intro req h
    by_contra hcon
    apply h
    have hfind : Router.handlerFor req.Method req.Path = none := by
      simp only [Engine.handlerFor, Router, Engine.GET, Engine.Use, Engine.New, List.nil_append,
        List.cons_append, List.find?_cons, List.find?_nil]
      by_cases hm : req.Method = "GET"
      · have h1 : ("/health" == req.Path) = false :=
          beq_eq_false_iff_ne.2 fun hp => hcon ⟨hm, Or.inl hp.symm⟩
        have h2 : ("/ready" == req.Path) = false :=
          beq_eq_false_iff_ne.2 fun hp => hcon ⟨hm, Or.inr hp.symm⟩
        simp [h1, h2]
      · have h0 : ("GET" == req.Method) = false :=
          beq_eq_false_iff_ne.2 fun hg => hm hg.symm
        simp [h0]
    simp [Engine.serve, hfind]

/-- C8 at a GET /health request that carries a header and a body. -/
theorem router_routes_and_responses_witness :
    Router.serve healthRequest
      = some { Status := 200, ContentType := "application/json; charset=utf-8",
               Body := "\x7b\"status\":\"ok\"\x7d" } :=
  router_routes_and_responses.2.2.1 healthRequest (by decide) (by decide)

end FlagZero
